import Mathlib

/-!
Verification of the malcha-dagu frontend core: discount computation,
source classification, loader state machine, mutation invalidation,
error classification, auth-state derivation and the price-update guard.
Each definition is a shallow embedding of the corresponding TypeScript
function; numbers are modelled as exact rationals (every concrete input
used below is exactly representable as an IEEE double, so the rational
model agrees with the JavaScript evaluation at those inputs).
-/

namespace MalchaDagu

/-- JavaScript `Math.round`: rounds half toward positive infinity,
i.e. `Math.round x = ⌊x + 1/2⌋` for finite inputs. -/
def jsRound (x : ℚ) : ℤ := ⌊x + 1/2⌋

/-- `calculateDiscount` from `ItemCard.tsx`:
`if (referencePrice <= 0) return 0; return Math.round((1 - price / referencePrice) * 100)`. -/
def calculateDiscount (price referencePrice : ℚ) : ℤ :=
  if referencePrice ≤ 0 then 0 else jsRound ((1 - price / referencePrice) * 100)

/-- Rounding as the spec words it: halves rounded away from zero. -/
def roundHalfAwayFromZero (x : ℚ) : ℤ :=
  if 0 ≤ x then ⌊x + 1/2⌋ else -⌊-x + 1/2⌋

end MalchaDagu

namespace MalchaDagu

theorem jsRound_nonneg (x : ℚ) (hx : 0 ≤ x) : 0 ≤ jsRound x := by
  unfold jsRound
  have : (0 : ℚ) ≤ x + 1/2 := by linarith
  exact Int.le_floor.mpr (by exact_mod_cast this)

/-- C2 (amended): the discount computation returns 0 whenever the reference
price is not strictly positive, and its result is non-negative whenever the
price does not exceed the reference price. -/
theorem calculateDiscount_zero_and_nonneg (price referencePrice : ℚ) :
    (referencePrice ≤ 0 → calculateDiscount price referencePrice = 0) ∧
    (price ≤ referencePrice → 0 ≤ calculateDiscount price referencePrice) := by
  constructor
  · intro h
    unfold calculateDiscount
    simp [h]
  · intro hle
    unfold calculateDiscount
    by_cases h : referencePrice ≤ 0
    · simp [h]
    · simp only [h, if_false]
      push_neg at h
      apply jsRound_nonneg
      have hdiv : price / referencePrice ≤ 1 := (div_le_one h).mpr hle
      nlinarith

/-- C2 counterexample: the claim "its result is never negative for any pair of
inputs" is false; with price 200000 and reference price 100000 the computed
discount is −100. Both the division and the rounding are exact at this input,
so the rational model coincides with the JavaScript evaluation. -/
theorem calculateDiscount_negative_example :
    calculateDiscount 200000 100000 = -100 ∧ calculateDiscount 200000 100000 < 0 := by
  constructor <;> norm_num [calculateDiscount, jsRound]

/-- C2 witness: at price 70000 and reference 0 the discount is 0, and at
price 70000 with reference 100000 it is non-negative. -/
theorem calculateDiscount_zero_and_nonneg_witness :
    calculateDiscount 70000 0 = 0 ∧ 0 ≤ calculateDiscount 70000 100000 :=
  ⟨(calculateDiscount_zero_and_nonneg 70000 0).1 (by norm_num),
   (calculateDiscount_zero_and_nonneg 70000 100000).2 (by norm_num)⟩

/-- C3 (amended): for a strictly positive reference price the computed
discount equals `round((1 - price/reference) * 100)` where halves are rounded
toward positive infinity (JavaScript `Math.round`); when the price does not
exceed the reference the value is non-negative and this coincides with
half-away-from-zero rounding; reference 100000 with price 70000 yields 30. -/
theorem calculateDiscount_round_spec (price referencePrice : ℚ) :
    (0 < referencePrice →
      calculateDiscount price referencePrice =
        jsRound ((1 - price / referencePrice) * 100)) ∧
    (0 < referencePrice → price ≤ referencePrice →
      calculateDiscount price referencePrice =
        roundHalfAwayFromZero ((1 - price / referencePrice) * 100)) ∧
    calculateDiscount 70000 100000 = 30 := by
  refine ⟨?_, ?_, by norm_num [calculateDiscount, jsRound]⟩
  · intro h
    unfold calculateDiscount
    simp [not_le.mpr h]
  · intro h hle
    have hx : (0 : ℚ) ≤ (1 - price / referencePrice) * 100 := by
      have hdiv : price / referencePrice ≤ 1 := (div_le_one h).mpr hle
      nlinarith
    unfold calculateDiscount roundHalfAwayFromZero jsRound
    simp [not_le.mpr h, hx]

/-- C3 counterexample: the claim "halves rounded away from zero" is false.
At price 900000 and reference 800000 the exact value is −12.5 (this value is
also exact in IEEE doubles); JavaScript `Math.round` gives −12 while
half-away-from-zero rounding gives −13. -/
theorem calculateDiscount_half_example :
    calculateDiscount 900000 800000 = -12 ∧
    roundHalfAwayFromZero ((1 - (900000 : ℚ) / 800000) * 100) = -13 := by
  exact ⟨by norm_num [calculateDiscount, jsRound], by norm_num [roundHalfAwayFromZero]⟩

/-- C3 witness: applying the amended statement at reference 100000,
price 70000. -/
theorem calculateDiscount_round_spec_witness :
    calculateDiscount 70000 100000 =
      roundHalfAwayFromZero ((1 - (70000 : ℚ) / 100000) * 100) :=
  (calculateDiscount_round_spec 70000 100000).2.1 (by norm_num) (by norm_num)

/-- JavaScript `String.prototype.includes`: substring containment. -/
def strContainsSub (s pat : String) : Bool := decide (pat.data <:+: s.data)

/-- JavaScript `String.prototype.toLowerCase`, restricted to per-character
lowercasing (it agrees with `toLowerCase` on ASCII, which covers every
pattern the classifier tests). -/
def strToLower (s : String) : String := ⟨s.data.map Char.toLower⟩

/-- `detectSource` from `SearchResultPage.tsx`: ordered, first-match-wins
substring checks against the lower-cased URL. -/
def detectSource (url : String) : String :=
  let lower := strToLower url
  if strContainsSub lower "mule.co.kr" then "mule"
  else if strContainsSub lower "joonggonara" ||
      (strContainsSub lower "cafe.naver.com" && strContainsSub lower "joon") then "joonggonara"
  else if strContainsSub lower "daangn.com" || strContainsSub lower "danggn" then "danggn"
  else if strContainsSub lower "bunjang.co.kr" then "bunjang"
  else "other"

/-- C5: `detectSource` is total into the closed set of five tags, and it
maps the three round-trip examples as the spec states; a URL containing
several vendor tokens resolves to the first listed vendor. -/
theorem detectSource_spec :
    (∀ url : String, detectSource url = "mule" ∨ detectSource url = "joonggonara" ∨
      detectSource url = "danggn" ∨ detectSource url = "bunjang" ∨
      detectSource url = "other") ∧
    detectSource "https://www.mule.co.kr/x" = "mule" ∧
    detectSource "m.daangn.com/abc" = "danggn" ∧
    detectSource "http://example.com" = "other" ∧
    detectSource "https://mule.co.kr/a?from=daangn.com" = "mule" := by
  refine ⟨?_, by decide, by decide, by decide, by decide⟩
  intro url
  simp only [detectSource]
  split_ifs <;> tauto

/-- An item as `ItemCard` sees it: the low price, and the server-sourced
`discount_rate` field when the item carries one (`MergedUserItem`s do,
`NaverItem`s do not). -/
structure CardItem where
  lprice : ℚ
  discount_rate : Option ℤ

/-- The discount selection in `ItemCard.tsx`:
`'discount_rate' in item ? item.discount_rate : referencePrice ? calculateDiscount(item.lprice, referencePrice) : 0`.
`referencePrice` is an optional prop; JavaScript truthiness makes a 0
reference fall to the 0 branch. -/
def itemCardDiscount (item : CardItem) (referencePrice : Option ℚ) : ℤ :=
  match item.discount_rate with
  | some d => d
  | none =>
    match referencePrice with
    | some r => if r = 0 then 0 else calculateDiscount item.lprice r
    | none => 0

/-- C6: a server-sourced `discount_rate` is displayed verbatim and is never
recomputed client-side; recomputation happens only for items without the
field and only when a (truthy) reference price is supplied; otherwise the
displayed discount is 0. -/
theorem itemCardDiscount_spec :
    (∀ item ref d, item.discount_rate = some d → itemCardDiscount item ref = d) ∧
    (∀ item, item.discount_rate = none → itemCardDiscount item none = 0) ∧
    (∀ item, item.discount_rate = none → itemCardDiscount item (some 0) = 0) ∧
    (∀ item r, item.discount_rate = none → r ≠ 0 →
      itemCardDiscount item (some r) = calculateDiscount item.lprice r) := by
  refine ⟨?_, ?_, ?_, ?_⟩
  · intro item ref d h
    unfold itemCardDiscount
    rw [h]
  · intro item h
    unfold itemCardDiscount
    rw [h]
  · intro item h
    unfold itemCardDiscount
    rw [h]
    simp
  · intro item r h hr
    unfold itemCardDiscount
    rw [h]
    simp [hr]

/-- C6 witness: an item carrying `discount_rate = 37` displays 37 even when a
reference price of 100000 would recompute differently, and an item without
the field and reference 100000 displays the recomputed discount. -/
theorem itemCardDiscount_spec_witness :
    itemCardDiscount ⟨70000, some 37⟩ (some 100000) = 37 ∧
    itemCardDiscount ⟨70000, none⟩ (some 100000) = calculateDiscount 70000 100000 :=
  ⟨itemCardDiscount_spec.1 ⟨70000, some 37⟩ (some 100000) 37 rfl,
   itemCardDiscount_spec.2.2.2 ⟨70000, none⟩ 100000 rfl (by norm_num)⟩

/-- Query-key prefixes used by the React Query hooks. -/
inductive QueryKey where
  | search
  | userItems
deriving DecidableEq

/-- The five mutations of `useSearch.ts`. -/
inductive MutationKind where
  | createUserItem
  | trackItemClick
  | extendUserItem
  | reportItem
  | updateItemPrice
deriving DecidableEq

/-- The `onSuccess` invalidation calls of each mutation hook, transcribed in
source order from `useSearch.ts`. -/
def invalidatedKeys : MutationKind → List QueryKey
  | .createUserItem => [.userItems, .search]
  | .trackItemClick => [.userItems]
  | .extendUserItem => [.search, .userItems]
  | .reportItem => [.search, .userItems]
  | .updateItemPrice => [.search, .userItems]

/-- C7: create-item, extend, report and update-price each invalidate both the
search cache and the user-items listing; track-click invalidates only the
user-items listing and never the search cache. -/
theorem invalidatedKeys_spec :
    (QueryKey.search ∈ invalidatedKeys .createUserItem ∧
      QueryKey.userItems ∈ invalidatedKeys .createUserItem) ∧
    (QueryKey.search ∈ invalidatedKeys .extendUserItem ∧
      QueryKey.userItems ∈ invalidatedKeys .extendUserItem) ∧
    (QueryKey.search ∈ invalidatedKeys .reportItem ∧
      QueryKey.userItems ∈ invalidatedKeys .reportItem) ∧
    (QueryKey.search ∈ invalidatedKeys .updateItemPrice ∧
      QueryKey.userItems ∈ invalidatedKeys .updateItemPrice) ∧
    (QueryKey.userItems ∈ invalidatedKeys .trackItemClick ∧
      QueryKey.search ∉ invalidatedKeys .trackItemClick) := by
  decide

/-- An Axios error response as the handlers see it: `response?.status` and
`response?.data?.error`. -/
structure AxiosResponse where
  status : ℕ
  errorMsg : Option String

/-- An Axios error: `response` is absent when no response was received. -/
structure AxiosFailure where
  response : Option AxiosResponse

/-- The user-facing categories of `handleExtendItem`'s `onError`, one per
`alert` branch. -/
inductive ExtendFailure where
  | needLogin
  | notOwner
  | notFound
  | serverError
  | network
  | fallback (msg : Option String)
deriving DecidableEq

/-- `handleExtendItem`'s `onError` from `SearchResultPage.tsx`: the status
checks in source order (401, 403, 404, 500), then the no-response check,
then the fallback that surfaces the body's `error` message when present.
When `response` is absent, `response?.status` is `undefined` and every
numeric comparison fails, so matching on the absent response first is
equivalent. -/
def classifyExtendError (e : AxiosFailure) : ExtendFailure :=
  match e.response with
  | none => .network
  | some r =>
    if r.status = 401 then .needLogin
    else if r.status = 403 then .notOwner
    else if r.status = 404 then .notFound
    else if r.status = 500 then .serverError
    else .fallback r.errorMsg

/-- The user-facing categories of `handleUpdatePrice`'s `onError`, one per
`alert` branch. -/
inductive UpdatePriceFailure where
  | invalidPrice
  | priceTooHigh
  | badRequest (msg : Option String)
  | needLogin
  | notFound
  | serverError
  | network
  | fallback (msg : Option String)
deriving DecidableEq

/-- `handleUpdatePrice`'s `onError` from `SearchResultPage.tsx`: a 400
response is sub-classified by the body message (`유효한 가격`, `너무 높`,
else the message itself); then 401, 404, 500, the no-response check, and the
fallback. There is no 403 branch. -/
def classifyUpdatePriceError (e : AxiosFailure) : UpdatePriceFailure :=
  match e.response with
  | none => .network
  | some r =>
    if r.status = 400 then
      match r.errorMsg with
      | some m =>
        if strContainsSub m "유효한 가격" then .invalidPrice
        else if strContainsSub m "너무 높" then .priceTooHigh
        else .badRequest (some m)
      | none => .badRequest none
    else if r.status = 401 then .needLogin
    else if r.status = 404 then .notFound
    else if r.status = 500 then .serverError
    else .fallback r.errorMsg

/-- C8 counterexample: the claim maps 403 to a forbidden category for the
update-price mutation, but `handleUpdatePrice` has no 403 branch: a 403
response lands in the generic fallback, indistinguishable from any other
unrecognized status such as 418. -/
theorem classifyUpdatePriceError_403_example :
    classifyUpdatePriceError ⟨some ⟨403, none⟩⟩ = .fallback none ∧
    classifyUpdatePriceError ⟨some ⟨403, none⟩⟩ =
      classifyUpdatePriceError ⟨some ⟨418, none⟩⟩ := by
  exact ⟨rfl, rfl⟩

/-- C8 (amended): every failure of the extend and update-price mutations is
mapped by a total classifier to exactly one user-facing category: for extend,
401 → unauthenticated, 403 → forbidden, 404 → not found, 500 → server fault,
absent response → network unreachable, and any other status (400 included)
falls back to the body-derived detail; for update-price, 400 → validation or
conflict sub-classified by the body message, 401 → unauthenticated,
404 → not found, 500 → server fault, absent response → network unreachable,
while 403 and any other unlisted status fall back to the body-derived detail.
No raw transport exception reaches rendering code: both classifiers are total
functions of the caught error. -/
theorem mutationErrorClassification_spec :
    (∀ m, classifyExtendError ⟨some ⟨401, m⟩⟩ = .needLogin) ∧
    (∀ m, classifyExtendError ⟨some ⟨403, m⟩⟩ = .notOwner) ∧
    (∀ m, classifyExtendError ⟨some ⟨404, m⟩⟩ = .notFound) ∧
    (∀ m, classifyExtendError ⟨some ⟨500, m⟩⟩ = .serverError) ∧
    classifyExtendError ⟨none⟩ = .network ∧
    (∀ m, classifyExtendError ⟨some ⟨400, m⟩⟩ = .fallback m) ∧
    (∀ m, classifyUpdatePriceError ⟨some ⟨401, m⟩⟩ = .needLogin) ∧
    (∀ m, classifyUpdatePriceError ⟨some ⟨404, m⟩⟩ = .notFound) ∧
    (∀ m, classifyUpdatePriceError ⟨some ⟨500, m⟩⟩ = .serverError) ∧
    classifyUpdatePriceError ⟨none⟩ = .network ∧
    classifyUpdatePriceError ⟨some ⟨400, none⟩⟩ = .badRequest none ∧
    classifyUpdatePriceError ⟨some ⟨400, some "유효한 가격을 입력해주세요."⟩⟩ = .invalidPrice ∧
    classifyUpdatePriceError ⟨some ⟨400, some "가격이 너무 높습니다."⟩⟩ = .priceTooHigh ∧
    (∀ m, classifyUpdatePriceError ⟨some ⟨403, m⟩⟩ = .fallback m) := by
  refine ⟨fun m => rfl, fun m => rfl, fun m => rfl, fun m => rfl, rfl, fun m => rfl,
    fun m => rfl, fun m => rfl, fun m => rfl, rfl, rfl, by decide, by decide, fun m => rfl⟩

/-- The state exposed by `useAuth`. -/
structure AuthState where
  isLoggedIn : Bool
  isLoading : Bool
  userId : Option ℕ
  username : Option String
deriving DecidableEq

/-- The parsed body of a `/api/auth/check/` reply together with `response.ok`;
`user_id` and `username` are absent when the JSON lacks them. -/
structure AuthCheckReply where
  ok : Bool
  is_authenticated : Bool
  user_id : Option ℕ
  username : Option String

/-- JavaScript `data.user_id || null`: `undefined` and the falsy 0 both
become `null`. -/
def orNullNat : Option ℕ → Option ℕ
  | some 0 => none
  | some (n + 1) => some (n + 1)
  | none => none

/-- JavaScript `data.username || null`: `undefined` and the falsy empty
string both become `null`. -/
def orNullStr : Option String → Option String
  | some "" => none
  | some s => some s
  | none => none

/-- The state stored by `checkAuth` in the first revision of `useAuth.ts`
(no development bypass): `fetchReply` is `none` when the fetch threw. -/
def checkAuthStateBase (fetchReply : Option AuthCheckReply) : AuthState :=
  match fetchReply with
  | none => ⟨false, false, none, none⟩
  | some r =>
    if r.ok then ⟨r.is_authenticated, false, orNullNat r.user_id, orNullStr r.username⟩
    else ⟨false, false, none, none⟩

/-- The state stored by `checkAuth` in the revised `useAuth.ts`: when
`window.location.hostname` is `localhost` or `127.0.0.1` the auth check is
bypassed and a logged-in development state is stored without any request. -/
def checkAuthState (hostname : String) (fetchReply : Option AuthCheckReply) : AuthState :=
  if hostname = "localhost" ∨ hostname = "127.0.0.1" then
    ⟨true, false, some 1, some "Developer"⟩
  else checkAuthStateBase fetchReply

/-- C9 counterexample: on hostname `localhost` the revised hook stores
`isLoggedIn = true` with no auth-check response at all (the fetch is never
issued), so `isLoggedIn` is not derived solely from `is_authenticated`. -/
theorem checkAuthState_localhost_example :
    (checkAuthState "localhost" none).isLoggedIn = true := by
  decide

/-- C9 (amended): except for the development bypass on hostnames `localhost`
and `127.0.0.1`, the client never reads the session cookie itself:
`isLoggedIn` is true only when the `/api/auth/check/` response was ok and
reported `is_authenticated` as true; the un-revised hook satisfies this
unconditionally. -/
theorem checkAuthState_only_from_reply :
    (∀ reply, (checkAuthStateBase reply).isLoggedIn = true →
      ∃ r, reply = some r ∧ r.ok = true ∧ r.is_authenticated = true) ∧
    (∀ hostname reply, hostname ≠ "localhost" → hostname ≠ "127.0.0.1" →
      (checkAuthState hostname reply).isLoggedIn = true →
      ∃ r, reply = some r ∧ r.ok = true ∧ r.is_authenticated = true) := by
  have base : ∀ reply, (checkAuthStateBase reply).isLoggedIn = true →
      ∃ r, reply = some r ∧ r.ok = true ∧ r.is_authenticated = true := by
    intro reply h
    match reply with
    | none => simp [checkAuthStateBase] at h
    | some r =>
      by_cases hok : r.ok = true
      · refine ⟨r, rfl, hok, ?_⟩
        simpa [checkAuthStateBase, hok] using h
      · simp [checkAuthStateBase, hok] at h
  refine ⟨base, ?_⟩
  intro hostname reply h1 h2 h
  rw [checkAuthState, if_neg (by simp [h1, h2])] at h
  exact base reply h

/-- C9 witness: a non-localhost hostname with an ok reply reporting
`is_authenticated = true` yields a logged-in state derived from the reply. -/
theorem checkAuthState_only_from_reply_witness :
    ∃ r, (some (⟨true, true, some 7, some "user"⟩ : AuthCheckReply)) = some r ∧
      r.ok = true ∧ r.is_authenticated = true :=
  checkAuthState_only_from_reply.2 "dagu.example.com"
    (some ⟨true, true, some 7, some "user"⟩)
    (by decide) (by decide) (by decide)

/-- ASCII whitespace skipped by JavaScript `parseInt`. -/
def isJsSpace (c : Char) : Bool :=
  c = ' ' || c = '\t' || c = '\n' || c = '\r'

/-- Value of a run of decimal digit characters. -/
def digitsVal (l : List Char) : ℕ :=
  l.foldl (fun n c => 10 * n + (c.toNat - 48)) 0

/-- JavaScript `parseInt(s, 10)`: skip leading whitespace, an optional sign,
then the longest leading run of decimal digits; `none` models `NaN` (no
digits found). -/
def parseIntTen (s : String) : Option ℤ :=
  let cs := s.data.dropWhile (fun c => isJsSpace c)
  match cs with
  | '-' :: rest =>
    let ds := rest.takeWhile Char.isDigit
    if ds.isEmpty then none else some (-(digitsVal ds : ℤ))
  | '+' :: rest =>
    let ds := rest.takeWhile Char.isDigit
    if ds.isEmpty then none else some (digitsVal ds : ℤ)
  | _ =>
    let ds := cs.takeWhile Char.isDigit
    if ds.isEmpty then none else some (digitsVal ds : ℤ)

/-- JavaScript `s.replace(/,/g, '')`. -/
def stripCommas (s : String) : String := ⟨s.data.filter (fun c => c ≠ ',')⟩

/-- `handlePriceSubmit` from `ItemCard.tsx`: parse the entered text with the
commas removed; on `NaN` or a non-positive value alert and return without
calling the mutation; otherwise call `onUpdatePrice` with the parsed price.
The result is the argument passed to the update-price mutation, or `none`
when no mutation call is made. -/
def handlePriceSubmit (newPrice : String) : Option ℤ :=
  match parseIntTen (stripCommas newPrice) with
  | none => none
  | some price => if price ≤ 0 then none else some price

/-- C10: the update-price mutation is invoked only when the entered text
parses to an integer strictly greater than zero; a text that parses to NaN
or to a non-positive number never produces a mutation call. -/
theorem handlePriceSubmit_spec :
    (∀ s p, handlePriceSubmit s = some p →
      0 < p ∧ parseIntTen (stripCommas s) = some p) ∧
    (∀ s, parseIntTen (stripCommas s) = none → handlePriceSubmit s = none) ∧
    (∀ s p, parseIntTen (stripCommas s) = some p → p ≤ 0 →
      handlePriceSubmit s = none) := by
  refine ⟨?_, ?_, ?_⟩
  · intro s p h
    unfold handlePriceSubmit at h
    cases hp : parseIntTen (stripCommas s) with
    | none => rw [hp] at h; exact absurd h (by simp)
    | some q =>
      rw [hp] at h
      by_cases hq : q ≤ 0
      · simp [hq] at h
      · simp only [hq, if_false] at h
        injection h with hqp
        subst hqp
        exact ⟨lt_of_not_le hq, rfl⟩
  · intro s h
    unfold handlePriceSubmit
    rw [h]
  · intro s p h hp
    unfold handlePriceSubmit
    rw [h]
    simp [hp]

/-- C10 witness: the text "1,000" strips to "1000", parses to 1000 and is
passed on; the theorem applied there yields positivity; the text "0" parses
to 0 and produces no mutation call. -/
theorem handlePriceSubmit_spec_witness :
    (0 < (1000 : ℤ) ∧ parseIntTen (stripCommas "1,000") = some 1000) ∧
    handlePriceSubmit "0" = none :=
  ⟨handlePriceSubmit_spec.1 "1,000" 1000 (by decide),
   handlePriceSubmit_spec.2.2 "0" 0 (by decide) (by decide)⟩

/-- `MIN_LOADING_TIME` from `SearchResultPage.tsx`, in milliseconds. -/
def MIN_LOADING_TIME : ℕ := 3400

/-- `MIN_LOADING_TIME` from `CategoryPage.tsx`, in milliseconds; the loader
state machine there is identical up to this constant, so the loader theorems
below are stated for an arbitrary minimum duration. -/
def CATEGORY_MIN_LOADING_TIME : ℕ := 2500

/-- The loader-relevant state of `SearchResultPage` (and `CategoryPage`):
the two `useState` flags, the query's `isLoading` flag from React Query, and
the instant the pending minimum-duration timer was started. -/
structure LoaderState where
  showLoader : Bool
  minTimeElapsed : Bool
  isLoading : Bool
  timerStart : ℕ
deriving DecidableEq

/-- The spec's `networkSettled` flag, derived in the code as `!isLoading`. -/
def networkSettled (s : LoaderState) : Bool := !s.isLoading

/-- The asynchronous callbacks that touch the loader state:
`submit t cacheHot` is a run of the `[query]` effect at time `t`
(`cacheHot` records whether the cache already holds data for the query, in
which case React Query reports `isLoading = false` immediately);
`timerFire t` is the `setTimeout` callback; `settle t` is the query leaving
its loading state. React re-runs the `[query]` effect only when the `query`
string changed value between renders, so a user submission produces a
`submit` event only in that case — `submitQuery` below performs that
dependency comparison; a `submit` event here is an effect run, not a user
submission. -/
inductive LoaderEvent where
  | submit (t : ℕ) (cacheHot : Bool)
  | timerFire (t : ℕ)
  | settle (t : ℕ)
deriving DecidableEq

def eventTime : LoaderEvent → ℕ
  | .submit t _ => t
  | .timerFire t => t
  | .settle t => t

def isSubmitEvent : LoaderEvent → Bool
  | .submit _ _ => true
  | .timerFire _ => false
  | .settle _ => false

/-- The `[isLoading, minTimeElapsed]` effect: hide the loader once the
query is no longer loading and the minimum time has elapsed. It runs after
every state change, so `step` applies it after each event. -/
def hideCheck (s : LoaderState) : LoaderState :=
  if !s.isLoading && s.minTimeElapsed then { s with showLoader := false } else s

/-- One event of the loader state machine, for a minimum duration `minTime`:
a submission shows the loader, clears `minTimeElapsed` and restarts the
timer regardless of the cache; the timer callback is the one scheduled
`minTime` after the latest submission (an earlier timer was cancelled by the
effect cleanup, modelled by the guard on its due time); settling clears
`isLoading`. -/
def step (minTime : ℕ) (s : LoaderState) : LoaderEvent → LoaderState
  | .submit t cacheHot =>
    hideCheck { showLoader := true, minTimeElapsed := false,
                isLoading := !cacheHot, timerStart := t }
  | .timerFire t =>
    if t = s.timerStart + minTime then hideCheck { s with minTimeElapsed := true } else s
  | .settle _ => hideCheck { s with isLoading := false }

/-- Run a sequence of events. -/
def run (minTime : ℕ) (s : LoaderState) (evs : List LoaderEvent) : LoaderState :=
  evs.foldl (step minTime) s

theorem run_keeps_loader (minTime t : ℕ) (evs : List LoaderEvent)
    (hlo : ∀ e ∈ evs, t ≤ eventTime e)
    (hhi : ∀ e ∈ evs, eventTime e < t + minTime) :
    ∀ s : LoaderState, s.showLoader = true → s.minTimeElapsed = false →
      t ≤ s.timerStart → (run minTime s evs).showLoader = true := by
  induction evs with
  | nil => intro s h1 _ _; exact h1
  | cons e rest ih =>
    intro s h1 h2 h3
    have hlo' : ∀ x ∈ rest, t ≤ eventTime x :=
      fun x hx => hlo x (List.mem_cons_of_mem _ hx)
    have hhi' : ∀ x ∈ rest, eventTime x < t + minTime :=
      fun x hx => hhi x (List.mem_cons_of_mem _ hx)
    have hstep : (step minTime s e).showLoader = true ∧
        (step minTime s e).minTimeElapsed = false ∧
        t ≤ (step minTime s e).timerStart := by
      cases e with
      | submit u hot =>
        have hu : t ≤ u := hlo _ (List.mem_cons_self _ _)
        simp [step, hideCheck, hu]
      | timerFire u =>
        have hu : u < t + minTime := hhi _ (List.mem_cons_self _ _)
        have hne : u ≠ s.timerStart + minTime := by omega
        simp [step, hne, h1, h2, h3]
      | settle u =>
        simp [step, hideCheck, h1, h2, h3]
    exact ih hlo' hhi' _ hstep.1 hstep.2.1 hstep.2.2

/-- The page state a user submission acts on: the mounted `query` string
(the `q` search param driving the `[query]` effect's dependency array) and
the loader state. -/
structure PageState where
  query : String
  loader : LoaderState
deriving DecidableEq

/-- A user submission of query `q` at time `t` (`handleSearch` navigating to
`/search?q=...`): the page re-renders with the new `q` param, and React
re-runs the `[query]` effect only when the string changed value. When `q`
equals the mounted query, the dependency is value-equal and the effect does
not re-run — nothing in the loader state changes. When it differs but is
empty, the effect re-runs and returns at its `if (!query) return` guard.
Otherwise the effect body runs: a `submit` event of the loader machine. -/
def submitQuery (minTime : ℕ) (p : PageState) (q : String) (t : ℕ)
    (cacheHot : Bool) : PageState :=
  if q = p.query then p
  else if q = "" then { p with query := q }
  else { query := q, loader := step minTime p.loader (.submit t cacheHot) }

/-- C1 counterexample: re-submitting the exact query currently mounted — the
"same query twice in direct succession" case — does not re-run the `[query]`
effect, because React compares the string dependency by value. With the
loader already hidden after the first search, the second submission leaves
the entire state unchanged: the loader is not re-shown, the flags are not
reset, and no timer restarts, so the loader is not visible for
`MIN_LOADING_TIME` (or at all) on that submission. -/
theorem loader_same_query_resubmit_example :
    submitQuery MIN_LOADING_TIME ⟨"stratocaster", ⟨false, true, false, 0⟩⟩
      "stratocaster" 5000 true =
      ⟨"stratocaster", ⟨false, true, false, 0⟩⟩ ∧
    (submitQuery MIN_LOADING_TIME ⟨"stratocaster", ⟨false, true, false, 0⟩⟩
      "stratocaster" 5000 true).loader.showLoader = false := by
  constructor <;> decide

/-- C1 (amended): on every submission of a non-empty query that differs from
the currently mounted query — including re-submitting a query whose results
are already cached — the `[query]` effect re-runs: the loader is shown,
`minTimeElapsed` is reset to false and the minimum-duration timer is
restarted at the submission instant (`networkSettled` is false only when the
submission actually issues a request; a cache-hot query is settled from the
start); the loader then stays visible through every event occurring strictly
before the minimum duration has passed, so results are not shown before
`MIN_LOADING_TIME` elapses. The guarantee is per query-change, not per
submission: re-submitting the identical mounted query resets nothing and
shows no loader. -/
theorem loader_min_duration_per_query_change (p : PageState) (q : String)
    (t : ℕ) (cacheHot : Bool) (evs : List LoaderEvent)
    (hq : q ≠ p.query) (hne : q ≠ "")
    (hlo : ∀ e ∈ evs, t ≤ eventTime e)
    (hhi : ∀ e ∈ evs, eventTime e < t + MIN_LOADING_TIME) :
    (submitQuery MIN_LOADING_TIME p q t cacheHot).query = q ∧
    (submitQuery MIN_LOADING_TIME p q t cacheHot).loader =
      ⟨true, false, !cacheHot, t⟩ ∧
    (run MIN_LOADING_TIME (submitQuery MIN_LOADING_TIME p q t cacheHot).loader
      evs).showLoader = true := by
  have hsub : submitQuery MIN_LOADING_TIME p q t cacheHot =
      ⟨q, ⟨true, false, !cacheHot, t⟩⟩ := by
    unfold submitQuery
    rw [if_neg hq, if_neg hne]
    simp [step, hideCheck]
  rw [hsub]
  exact ⟨rfl, rfl,
    run_keeps_loader MIN_LOADING_TIME t evs hlo hhi ⟨true, false, !cacheHot, t⟩ rfl rfl le_rfl⟩

/-- C1 witness: a cache-hot submission of a fresh query at time 100 followed
by a spurious settle event at 105 — the loader state is fully reset and the
loader is still visible. -/
theorem loader_min_duration_per_query_change_witness :
    (submitQuery MIN_LOADING_TIME ⟨"", ⟨true, false, false, 0⟩⟩
      "stratocaster" 100 true).loader = ⟨true, false, false, 100⟩ ∧
    (run MIN_LOADING_TIME (submitQuery MIN_LOADING_TIME ⟨"", ⟨true, false, false, 0⟩⟩
      "stratocaster" 100 true).loader [.settle 105]).showLoader = true := by
  have h := loader_min_duration_per_query_change ⟨"", ⟨true, false, false, 0⟩⟩
    "stratocaster" 100 true [.settle 105] (by decide) (by decide)
    (by intro e he; rw [List.mem_singleton] at he; subst he; decide)
    (by intro e he; rw [List.mem_singleton] at he; subst he; decide)
  exact ⟨h.2.1, h.2.2⟩

/-- The spec's loader invariant: `visible == !(networkSettled && minTimeElapsed)`. -/
def loaderInv (s : LoaderState) : Prop :=
  s.showLoader = !(networkSettled s && s.minTimeElapsed)

theorem step_preserves_loaderInv (mt : ℕ) (s : LoaderState) (e : LoaderEvent)
    (h : loaderInv s) : loaderInv (step mt s e) := by
  obtain ⟨sl, mte, il, ts⟩ := s
  have hsl : sl = !(!il && mte) := h
  subst hsl
  cases e with
  | submit u hot => simp [loaderInv, networkSettled, step, hideCheck]
  | timerFire u =>
    simp only [step]
    split_ifs with hg
    · cases il <;> cases mte <;> simp [loaderInv, networkSettled, hideCheck]
    · cases il <;> cases mte <;> simp [loaderInv, networkSettled]
  | settle u =>
    simp only [step]
    cases il <;> cases mte <;> simp [loaderInv, networkSettled, hideCheck]

theorem step_no_revive (mt : ℕ) (s : LoaderState) (e : LoaderEvent)
    (hs : s.showLoader = false) (he : isSubmitEvent e = false) :
    (step mt s e).showLoader = false := by
  cases e with
  | submit u hot => simp [isSubmitEvent] at he
  | timerFire u =>
    simp only [step]
    split_ifs
    · unfold hideCheck
      split_ifs <;> simp_all
    · exact hs
  | settle u =>
    simp only [step]
    unfold hideCheck
    split_ifs <;> simp_all

/-- C4: for any minimum duration, every submission establishes the invariant
`visible == !(networkSettled && minTimeElapsed)`, every event sequence
preserves it, and once the loader is hidden no sequence of non-submission
events ever shows it again — only a new submission can. -/
theorem loaderInvariant_spec (mt : ℕ) :
    (∀ (s : LoaderState) (t : ℕ) (hot : Bool), loaderInv (step mt s (.submit t hot))) ∧
    (∀ (s : LoaderState) (evs : List LoaderEvent), loaderInv s → loaderInv (run mt s evs)) ∧
    (∀ (s : LoaderState) (evs : List LoaderEvent), s.showLoader = false →
      (∀ e ∈ evs, isSubmitEvent e = false) → (run mt s evs).showLoader = false) := by
  refine ⟨?_, ?_, ?_⟩
  · intro s t hot
    simp [loaderInv, networkSettled, step, hideCheck]
  · intro s evs h
    induction evs generalizing s with
    | nil => exact h
    | cons e rest ih => exact ih _ (step_preserves_loaderInv mt s e h)
  · intro s evs hs hall
    induction evs generalizing s with
    | nil => exact hs
    | cons e rest ih =>
      exact ih _ (step_no_revive mt s e hs (hall e (List.mem_cons_self _ _)))
        (fun x hx => hall x (List.mem_cons_of_mem _ hx))

/-- C4 witness: the invariant holds after a loading submission followed by a
settle and the timer firing at the due instant, for the search page's
minimum duration; and a hidden loader stays hidden through further
non-submission events. -/
theorem loaderInvariant_spec_witness :
    loaderInv (run MIN_LOADING_TIME ⟨true, false, true, 0⟩
      [.settle 50, .timerFire 3400]) ∧
    (run MIN_LOADING_TIME ⟨false, true, false, 3400⟩ [.settle 3500, .timerFire 6800]).showLoader
      = false := by
  constructor
  · exact (loaderInvariant_spec MIN_LOADING_TIME).2.1 ⟨true, false, true, 0⟩
      [.settle 50, .timerFire 3400] (by unfold loaderInv networkSettled; decide)
  · exact (loaderInvariant_spec MIN_LOADING_TIME).2.2 ⟨false, true, false, 3400⟩
      [.settle 3500, .timerFire 6800] (by decide)
      (by intro e he; simp only [List.mem_cons, List.mem_singleton] at he
          rcases he with h | h | h <;> first | (subst h; decide) | exact absurd h (by simp))

end MalchaDagu
